import Mathlib

/-!
Shallow embedding of the WhatsApp conversation engine of the Miq2 backend
(src/backend/app/routers/chat.py and src/backend/app/models/chat.py), with
theorems settling the frozen claims about its specification.

Modelling conventions:
* SQLAlchemy rows become Lean structures; the database session becomes an
  explicit `DB` record of lists of rows, in insertion order (`.first()` on a
  filtered query is `List.find?`).
* UUIDs are modelled as `Nat` identifiers minted from `DB.nextId`; datetimes
  are `Nat` ticks passed in as `now`.
* Python `dict.get` reads become `Option` fields; Python string falsiness
  (`or` fallbacks, `if s:` guards) is modelled by `pyOr` / `pyTruthyStr`.
* The outbound gateway (`evolution_api.send_text`) is modelled by a `sendOk`
  oracle flag; a successful send appends to `DB.outbox`, a failed send raises
  `EvolutionAPIError`. A raised Python exception is an `Except.error` carrying
  the message and the database state already committed at raise time.
* `int(...)` on a message body is modelled by `pyInt?`, following CPython's
  grammar for ASCII inputs (optional sign, digits, single underscores strictly
  between digits, surrounding whitespace stripped).
-/

namespace Miq2

/-- Lifecycle status of a chat (models ChatStatus). -/
inductive ChatStatus
  | WAITING
  | IN_PROGRESS
  | CLOSED
deriving Repr, DecidableEq

/-- Chatbot automation state of a chat (models ChatbotState). -/
inductive ChatbotState
  | WELCOME
  | MENU
  | WAITING_AGENT
  | WITH_AGENT
  | RATING
  | FINISHED
deriving Repr, DecidableEq

/-- Connection status of the gateway instance (models ConnectionStatus). -/
inductive ConnectionStatus
  | DISCONNECTED
  | CONNECTING
  | CONNECTED
  | QRCODE
deriving Repr, DecidableEq

/-- A team row (models Team; only the fields the chat engine reads). -/
structure Team where
  id : Nat
  name : String
deriving Repr, DecidableEq

/-- A user row (models User; only the fields the chat engine reads).
`team_ids` models `[team.id for team in current_user.teams]`. -/
structure User where
  id : Nat
  is_superuser : Bool
  team_ids : List Nat
deriving Repr, DecidableEq

/-- A WhatsApp connection configuration row (models ChatConfig). -/
structure ChatConfig where
  instance_name : String
  connection_status : ConnectionStatus := .DISCONNECTED
  phone_number : Option String := none
  qrcode_base64 : Option String := none
  is_active : Bool := true
deriving Repr, DecidableEq

/-- A WhatsApp contact row (models ChatContact). -/
structure ChatContact where
  id : Nat
  remote_jid : String
  push_name : Option String := none
  custom_name : Option String := none
  profile_picture_url : Option String := none
  phone_number : Option String := none
  first_contact_at : Nat := 0
  last_contact_at : Nat := 0
deriving Repr, DecidableEq

/-- A conversation row (models Chat). -/
structure Chat where
  id : Nat
  protocol : String
  contact_id : Nat
  status : ChatStatus := .WAITING
  chatbot_state : ChatbotState := .WELCOME
  team_id : Option Nat := none
  assigned_user_id : Option Nat := none
  classification : Option String := none
  rating : Option Int := none
  closing_comments : Option String := none
  closed_by_id : Option Nat := none
  closed_at : Option Nat := none
  first_response_at : Option Nat := none
deriving Repr, DecidableEq

/-- A message row (models ChatMessage). -/
structure ChatMessage where
  id : Nat
  chat_id : Nat
  message_id : Option String
  remote_jid : String
  from_me : Bool
  message_type : String
  content : Option String := none
  media_url : Option String := none
  media_filename : Option String := none
  status : String := "pending"
  timestamp : Nat := 0
deriving Repr, DecidableEq

/-- One chatbot menu option, with `dict.get` semantics on its keys
(models one element of ChatbotConfig.menu_options). -/
structure MenuOption where
  option : Option String := none
  text : Option String := none
  team_id : Option Nat := none
deriving Repr, DecidableEq

/-- The chatbot configuration row (models ChatbotConfig). `welcome_message`
and `menu_message` are NOT NULL columns; the other texts are nullable. -/
structure ChatbotConfig where
  is_active : Bool := true
  welcome_message : String := "Olá! Bem-vindo ao nosso atendimento. 👋"
  menu_message : String := "Por favor, selecione uma opção:"
  invalid_option_message : Option String := some "Opção inválida. Por favor, escolha uma das opções disponíveis."
  queue_message : Option String := some "Você está na fila. Em breve um atendente irá te atender."
  rating_request_message : Option String := some "Por favor, avalie nosso atendimento de 1 a 10:"
  rating_thanks_message : Option String := some "Obrigado pela avaliação! Até a próxima. 👋"
  menu_options : List MenuOption := []
deriving Repr, DecidableEq

/-- One outbound gateway call recorded by a successful `send_text`. -/
structure SendCall where
  instanceName : Option String
  number : String
  text : String
deriving Repr, DecidableEq

/-- The database state: one list of rows per table, in insertion order,
plus the trace of successful outbound gateway sends and an id fountain. -/
structure DB where
  contacts : List ChatContact := []
  chats : List Chat := []
  messages : List ChatMessage := []
  chatConfigs : List ChatConfig := []
  chatbotConfigs : List ChatbotConfig := []
  teams : List Team := []
  outbox : List SendCall := []
  nextId : Nat := 0
deriving Repr, DecidableEq

/-- Python string-falsy `or`: `s or d` where empty/None strings are falsy. -/
def pyOr (s : Option String) (d : String) : String :=
  match s with
  | some t => if t = "" then d else t
  | none => d

/-- Python truthiness projection on an optional string. -/
def pyTruthyStr (s : Option String) : Option String :=
  match s with
  | some t => if t = "" then none else some t
  | none => none

/-- Infix test on character lists (structural, so concrete runs reduce in the
kernel). -/
def isInfixList (pat : List Char) : List Char → Bool
  | [] => pat.isEmpty
  | c :: rest => pat.isPrefixOf (c :: rest) || isInfixList pat rest

/-- Substring test, modelling Python's `needle in hay`. -/
def strContains (hay needle : String) : Bool :=
  isInfixList needle.data hay.data

/-- Python str.strip / the whitespace stripping of int(): drop whitespace at
both ends (ASCII whitespace; CPython also strips a few unicode spaces that
never occur in the inputs the engine handles). -/
def pyStrip (s : String) : String :=
  ⟨((s.data.dropWhile Char.isWhitespace).reverse.dropWhile Char.isWhitespace).reverse⟩

/-- Fuel-driven worker for Python str.replace (left-to-right, non-overlapping,
nonempty pattern); fuel is the input length, enough since every step consumes
at least one character. -/
def replaceAllAux (pat rep : List Char) : Nat → List Char → List Char
  | 0, s => s
  | _, [] => []
  | fuel + 1, c :: rest =>
    if pat.isPrefixOf (c :: rest) ∧ pat ≠ [] then
      rep ++ replaceAllAux pat rep fuel (List.drop (pat.length - 1) rest)
    else c :: replaceAllAux pat rep fuel rest

/-- Python str.replace for a nonempty pattern. -/
def replaceAll (s pat rep : String) : String :=
  ⟨replaceAllAux pat.data rep.data s.data.length s.data⟩

/-- Models evolution_api.parse_jid_to_number: the part before the first `@`. -/
def parseJidToNumber (jid : String) : String :=
  if strContains jid "@" then ⟨jid.data.takeWhile (fun c => !(c == '@'))⟩ else jid

/-- Models `remote_jid.replace("@s.whatsapp.net", "")`. -/
def jidNumber (remoteJid : String) : String :=
  replaceAll remoteJid "@s.whatsapp.net" ""

/-- Digit run validity after the leading digit has been consumed: digits with
single underscores strictly between digits (CPython int literal grammar). -/
def pyDigitsOkAux : List Char → Bool
  | [] => true
  | ['_'] => false
  | '_' :: d :: rest => d.isDigit && pyDigitsOkAux rest
  | c :: rest => c.isDigit && pyDigitsOkAux rest

/-- Validity of a full unsigned digit run for CPython `int`. -/
def pyDigitsOk : List Char → Bool
  | [] => false
  | c :: rest => c.isDigit && pyDigitsOkAux rest

/-- Numeric value of a digit run, ignoring underscores. -/
def digitsVal (cs : List Char) : Nat :=
  cs.foldl (fun a c => if c.isDigit then a * 10 + (c.toNat - 48) else a) 0

/-- Models CPython `int(s)` on an ASCII string: strip whitespace, optional
sign, digits with single underscores between digits; `none` models the
ValueError raised on any other input. -/
def pyInt? (s : String) : Option Int :=
  let core : List Char → Option Nat := fun l =>
    if pyDigitsOk l then some (digitsVal l) else none
  match (pyStrip s).data with
  | '+' :: rest => (core rest).map Int.ofNat
  | '-' :: rest => (core rest).map (fun n => -(Int.ofNat n))
  | rest => (core rest).map Int.ofNat

/-- Update every chat row with the given id (ids are unique in well-formed
states, so this is the single ORM object mutation plus commit). -/
def updateChat (db : DB) (chatId : Nat) (f : Chat → Chat) : DB :=
  { db with chats := db.chats.map (fun c => if c.id = chatId then f c else c) }

/-- Update every contact row with the given id. -/
def updateContact (db : DB) (contactId : Nat) (f : ChatContact → ChatContact) : DB :=
  { db with contacts := db.contacts.map (fun c => if c.id = contactId then f c else c) }

/-- Result of a webhook-side handler: normal return, or a raised Python
exception carrying its message and the database state committed so far. -/
abbrev PyRes := Except (String × DB) DB

/-- Models evolution_api.send_text under the `sendOk` oracle: a successful
send is appended to the outbox, a failure raises EvolutionAPIError. -/
def sendText (instanceName : Option String) (number text : String) (sendOk : Bool)
    (db : DB) : PyRes :=
  if sendOk then .ok { db with outbox := db.outbox ++ [⟨instanceName, number, text⟩] }
  else .error ("EvolutionAPIError", db)

/-- The `key` sub-dict of a message event, with `dict.get` semantics:
`remoteJid` already carries the `""` default used at both read sites. -/
structure MessageKey where
  remoteJid : String := ""
  id : Option String := none
  fromMe : Option Bool := none
deriving Repr, DecidableEq

/-- Fields of the typed message sub-objects (imageMessage and friends),
with `dict.get` semantics. -/
structure MediaFields where
  caption : Option String := none
  url : Option String := none
  base64 : Option String := none
  mimetype : Option String := none
  fileName : Option String := none
  text : Option String := none
deriving Repr, DecidableEq

/-- The `message` sub-dict of a message event: each known typed field is
present (`some`) or absent (`none`), matching the `"x" in message` checks. -/
structure WAMessage where
  conversation : Option String := none
  extendedTextMessage : Option MediaFields := none
  imageMessage : Option MediaFields := none
  videoMessage : Option MediaFields := none
  audioMessage : Option MediaFields := none
  documentMessage : Option MediaFields := none
  stickerMessage : Option MediaFields := none
deriving Repr, DecidableEq

/-- One element of a contacts.upsert payload, with `dict.get` semantics. -/
structure ContactData where
  remoteJid : Option String := none
  id : Option String := none
  pushName : Option String := none
  profilePictureUrl : Option String := none
deriving Repr, DecidableEq

/-- The `data` member of a webhook envelope: a dict from which each handler
reads its own keys with `dict.get` defaults (absent keys are the defaults). -/
structure EventData where
  key : MessageKey := {}
  message : WAMessage := {}
  pushName : Option String := none
  state : Option String := none
  number : Option String := none
  qrcodeBase64 : Option String := none
  updateStatus : Option Nat := none
  contacts : List ContactData := []
deriving Repr, DecidableEq

/-- A webhook envelope as read by handle_webhook: `payload.get("event")`,
`payload.get("instance")`, `payload.get("data", {})`. -/
structure WebhookPayload where
  event : Option String := none
  instanceName : Option String := none
  data : EventData := {}
deriving Repr, DecidableEq

/-- Message type, content and media url extraction of _handle_message_upsert
(the elif chain over the typed message fields, preferring embedded base64
payloads over remote urls). -/
def classifyMessage (m : WAMessage) : String × Option String × Option String :=
  match m.conversation with
  | some t => ("text", some t, none)
  | none =>
  match m.extendedTextMessage with
  | some e => ("text", e.text, none)
  | none =>
  match m.imageMessage with
  | some i =>
      let mediaUrl := match pyTruthyStr i.base64 with
        | some b => some ("data:" ++ (i.mimetype.getD "image/jpeg") ++ ";base64," ++ b)
        | none => i.url
      ("image", i.caption, mediaUrl)
  | none =>
  match m.videoMessage with
  | some v =>
      let mediaUrl := match pyTruthyStr v.base64 with
        | some b => some ("data:" ++ (v.mimetype.getD "video/mp4") ++ ";base64," ++ b)
        | none => v.url
      ("video", v.caption, mediaUrl)
  | none =>
  match m.audioMessage with
  | some a =>
      let mediaUrl := match pyTruthyStr a.base64 with
        | some b => some ("data:" ++ (a.mimetype.getD "audio/ogg") ++ ";base64," ++ b)
        | none => a.url
      ("audio", none, mediaUrl)
  | none =>
  match m.documentMessage with
  | some d =>
      let mediaUrl := match pyTruthyStr d.base64 with
        | some b => some ("data:" ++ (d.mimetype.getD "application/octet-stream") ++ ";base64," ++ b)
        | none => d.url
      ("document", d.fileName, mediaUrl)
  | none =>
  match m.stickerMessage with
  | some s =>
      let mediaUrl := match pyTruthyStr s.base64 with
        | some b => some ("data:" ++ (s.mimetype.getD "image/webp") ++ ";base64," ++ b)
        | none => s.url
      ("sticker", none, mediaUrl)
  | none => ("text", none, none)

/-- Fallback chatbot menu synthesized from the team roster when no menu
options are configured (one option per team, codes counted from 1). -/
def fallbackMenu (teams : List Team) : List MenuOption :=
  (teams.enumFrom 1).map (fun p => { option := some (toString p.1), text := some p.2.name, team_id := some p.2.id })

/-- The effective menu options of _process_chatbot: the configured ones, or
the team fallback when none are configured. -/
def menuOptionsOf (db : DB) (cfg : ChatbotConfig) : List MenuOption :=
  if cfg.menu_options.isEmpty then fallbackMenu db.teams else cfg.menu_options

/-- The rendered menu block appended to the welcome or invalid-option text. -/
def menuBlock (cfg : ChatbotConfig) (opts : List MenuOption) : String :=
  opts.foldl (fun acc o => acc ++ "\n" ++ o.option.getD "" ++ " - " ++ o.text.getD "")
    ("\n\n" ++ cfg.menu_message ++ "\n")

/-- The chat awaiting rating picked by `order_by(Chat.closed_at.desc()).first()`;
in Postgres a descending order puts NULLs first, so a missing `closed_at` sorts
as latest. -/
def latestByClosedAt : List Chat → Option Chat
  | [] => none
  | c :: cs => some (cs.foldl (fun a b => if laterClosed b a then b else a) c)
where
  laterClosed (b a : Chat) : Bool :=
    match b.closed_at, a.closed_at with
    | none, none => false
    | none, some _ => true
    | some _, none => false
    | some x, some y => decide (y < x)

/-- Models _process_chatbot (src/backend/app/routers/chat.py lines 614-743).
`chat` is the ORM object handed over by the ingestion handler; its state
matches the committed row with the same id. -/
def processChatbot (instanceName : Option String) (chat : Chat)
    (messageContent : Option String) (remoteJid : String) (sendOk : Bool)
    (db : DB) : PyRes :=
  match db.chatbotConfigs.head? with
  | none => .ok db
  | some cfg =>
    if !cfg.is_active then .ok db else
    match db.chatConfigs.find? (fun c => decide (some c.instance_name = instanceName)) with
    | none => .ok db
    | some _ =>
      let menuOptions := menuOptionsOf db cfg
      match chat.chatbot_state with
      | .WELCOME =>
          let fullMessage := cfg.welcome_message ++ menuBlock cfg menuOptions
          if sendOk then
            let db := { db with outbox := db.outbox ++ [⟨instanceName, jidNumber remoteJid, fullMessage⟩] }
            .ok (updateChat db chat.id (fun c => { c with chatbot_state := .MENU }))
          else
            .ok db
      | .MENU =>
          match messageContent with
          | none => .error ("AttributeError", db)
          | some content =>
            let userInput := pyStrip content
            match menuOptions.find? (fun o => decide (o.option = some userInput)) with
            | some opt =>
                let db := updateChat db chat.id (fun c =>
                  { c with
                    team_id := match opt.team_id with
                      | some t => some t
                      | none => c.team_id,
                    chatbot_state := .WAITING_AGENT })
                let queueMsg := pyOr cfg.queue_message
                  ("Você será atendido em " ++ opt.text.getD "" ++ ". Aguarde um momento.")
                sendText instanceName (jidNumber remoteJid) queueMsg sendOk db
            | none =>
                let errorMsg := pyOr cfg.invalid_option_message
                  "Opção inválida. Por favor, escolha uma das opções disponíveis."
                sendText instanceName (jidNumber remoteJid)
                  (errorMsg ++ menuBlock cfg menuOptions) sendOk db
      | .RATING =>
          match messageContent with
          | none => .error ("AttributeError", db)
          | some content =>
            match pyInt? (pyStrip content) with
            | some r =>
                if 1 ≤ r ∧ r ≤ 10 then
                  let db := updateChat db chat.id (fun c =>
                    { c with rating := some r, chatbot_state := .FINISHED })
                  let thanksMsg := pyOr cfg.rating_thanks_message
                    "Obrigado pela avaliação! Até a próxima. 👋"
                  sendText instanceName (jidNumber remoteJid) thanksMsg sendOk db
                else
                  sendText instanceName (jidNumber remoteJid)
                    "Por favor, digite um número de 1 a 10 para avaliar nosso atendimento:" sendOk db
            | none =>
                sendText instanceName (jidNumber remoteJid)
                  "Por favor, digite um número de 1 a 10 para avaliar nosso atendimento:" sendOk db
      | _ => .ok db

/-- Models _handle_message_upsert (src/backend/app/routers/chat.py lines
380-525): group/empty-jid skip, contact upsert, chat resolve-or-create,
content classification, unconditional message row insert, chatbot advance. -/
def handleMessageUpsert (instanceName : Option String) (data : EventData)
    (sendOk : Bool) (now : Nat) (db : DB) : PyRes :=
  let key := data.key
  let remoteJid := key.remoteJid
  let messageId := key.id
  let fromMe := key.fromMe.getD false
  if strContains remoteJid "@g.us" then .ok db
  else if remoteJid = "" then .ok db
  else
    let (contact, db) :=
      match db.contacts.find? (fun c => decide (c.remote_jid = remoteJid)) with
      | none =>
          let c : ChatContact :=
            { id := db.nextId, remote_jid := remoteJid, push_name := data.pushName,
              phone_number := some (parseJidToNumber remoteJid),
              first_contact_at := now, last_contact_at := now }
          (c, { db with contacts := db.contacts ++ [c], nextId := db.nextId + 1 })
      | some c =>
          let c2 :=
            { c with
              last_contact_at := now,
              push_name := match pyTruthyStr data.pushName with
                | some p => some p
                | none => c.push_name }
          (c2, updateContact db c.id (fun _ => c2))
    let chatRes : Option Chat × DB :=
      if !fromMe then
        match db.chats.find? (fun c => decide (c.contact_id = contact.id) && !decide (c.status = .CLOSED)) with
        | some chat => (some chat, db)
        | none =>
          match latestByClosedAt (db.chats.filter (fun c =>
              decide (c.contact_id = contact.id) && decide (c.chatbot_state = .RATING))) with
          | some chat => (some chat, db)
          | none =>
            let chat : Chat :=
              { id := db.nextId, protocol := "ATD" ++ toString now,
                contact_id := contact.id, status := .WAITING, chatbot_state := .WELCOME }
            (some chat, { db with chats := db.chats ++ [chat], nextId := db.nextId + 1 })
      else
        (db.chats.find? (fun c => decide (c.contact_id = contact.id) && !decide (c.status = .CLOSED)), db)
    match chatRes with
    | (none, db) => .ok db
    | (some chat, db) =>
      let (msgType, content, mediaUrl) := classifyMessage data.message
      let m : ChatMessage :=
        { id := db.nextId, chat_id := chat.id, message_id := messageId,
          remote_jid := remoteJid, from_me := fromMe, message_type := msgType,
          content := content, media_url := mediaUrl,
          status := if fromMe then "sent" else "received", timestamp := now }
      let db := { db with messages := db.messages ++ [m], nextId := db.nextId + 1 }
      if fromMe then .ok db
      else processChatbot instanceName chat content remoteJid sendOk db

/-- Content extraction of _handle_send_message (its own, simpler elif chain:
no base64 handling, filename recorded for documents). -/
def classifySendMessage (m : WAMessage) : String × Option String × Option String × Option String :=
  match m.conversation with
  | some t => ("text", some t, none, none)
  | none =>
  match m.extendedTextMessage with
  | some e => ("text", e.text, none, none)
  | none =>
  match m.imageMessage with
  | some i => ("image", i.caption, i.url, none)
  | none =>
  match m.videoMessage with
  | some v => ("video", v.caption, v.url, none)
  | none =>
  match m.audioMessage with
  | some a => ("audio", none, a.url, none)
  | none =>
  match m.documentMessage with
  | some d => ("document", d.fileName, d.url, d.fileName)
  | none =>
  match m.stickerMessage with
  | some s => ("sticker", none, s.url, none)
  | none => ("text", none, none, none)

/-- Models _handle_send_message (src/backend/app/routers/chat.py lines
528-611): attach an agent-sent message to the active chat, with an explicit
duplicate check on the gateway message id. -/
def handleSendMessage (data : EventData) (now : Nat) (db : DB) : PyRes :=
  let key := data.key
  let remoteJid := key.remoteJid
  let messageId := key.id
  if strContains remoteJid "@g.us" then .ok db
  else if remoteJid = "" then .ok db
  else
    match db.contacts.find? (fun c => decide (c.remote_jid = remoteJid)) with
    | none => .ok db
    | some contact =>
      match db.chats.find? (fun c => decide (c.contact_id = contact.id) && !decide (c.status = .CLOSED)) with
      | none => .ok db
      | some chat =>
        if (db.messages.find? (fun m => decide (m.message_id = messageId))).isSome then .ok db
        else
          let (msgType, content, mediaUrl, mediaFilename) := classifySendMessage data.message
          let m : ChatMessage :=
            { id := db.nextId, chat_id := chat.id, message_id := messageId,
              remote_jid := remoteJid, from_me := true, message_type := msgType,
              content := content, media_url := mediaUrl, media_filename := mediaFilename,
              status := "sent", timestamp := now }
          .ok { db with messages := db.messages ++ [m], nextId := db.nextId + 1 }

/-- Models _handle_connection_update (lines 344-366). -/
def handleConnectionUpdate (instanceName : Option String) (data : EventData) (db : DB) : DB :=
  match db.chatConfigs.find? (fun c => decide (some c.instance_name = instanceName)) with
  | none => db
  | some config =>
    let newStatus : ConnectionStatus :=
      match data.state with
      | some "open" => .CONNECTED
      | some "connecting" => .CONNECTING
      | _ => .DISCONNECTED
    let config2 := { config with connection_status := newStatus }
    let config3 :=
      if data.state = some "open" then
        { config2 with
          qrcode_base64 := none,
          phone_number := match data.number with
            | some n => some n
            | none => config2.phone_number }
      else config2
    { db with chatConfigs := db.chatConfigs.map (fun c =>
        if c.instance_name = config.instance_name then config3 else c) }

/-- Models _handle_qrcode_update (lines 369-377). -/
def handleQrcodeUpdate (instanceName : Option String) (data : EventData) (db : DB) : DB :=
  match db.chatConfigs.find? (fun c => decide (some c.instance_name = instanceName)) with
  | none => db
  | some config =>
    let config2 := { config with qrcode_base64 := data.qrcodeBase64, connection_status := .QRCODE }
    { db with chatConfigs := db.chatConfigs.map (fun c =>
        if c.instance_name = config.instance_name then config2 else c) }

/-- Models _handle_message_update (lines 746-764): map the gateway delivery
status code onto the message row found by gateway message id. -/
def handleMessageUpdate (data : EventData) (db : DB) : DB :=
  let messageId := data.key.id
  let updateStatus := data.updateStatus
  if pyTruthyStr messageId = none ∨ updateStatus = none ∨ updateStatus = some 0 then db
  else
    match db.messages.find? (fun m => decide (m.message_id = messageId)) with
    | none => db
    | some msg =>
      let newStatus :=
        match updateStatus with
        | some 1 => "pending"
        | some 2 => "sent"
        | some 3 => "delivered"
        | some 4 => "read"
        | _ => msg.status
      { db with messages := db.messages.map (fun m =>
          if m.id = msg.id then { m with status := newStatus } else m) }

/-- Models _handle_contacts_upsert (lines 767-791). -/
def handleContactsUpsert (data : EventData) (now : Nat) (db : DB) : DB :=
  data.contacts.foldl (fun db cd =>
    let remoteJid := match pyTruthyStr cd.remoteJid with
      | some r => some r
      | none => cd.id
    match pyTruthyStr remoteJid with
    | none => db
    | some rj =>
      if strContains rj "@g.us" then db
      else
        match db.contacts.find? (fun c => decide (c.remote_jid = rj)) with
        | some contact =>
          updateContact db contact.id (fun c =>
            let c := match pyTruthyStr cd.pushName with
              | some p => { c with push_name := some p }
              | none => c
            match pyTruthyStr cd.profilePictureUrl with
            | some p => { c with profile_picture_url := some p }
            | none => c)
        | none =>
          let c : ChatContact :=
            { id := db.nextId, remote_jid := rj, push_name := cd.pushName,
              phone_number := some (parseJidToNumber rj),
              profile_picture_url := cd.profilePictureUrl,
              first_contact_at := now, last_contact_at := now }
          { db with contacts := db.contacts ++ [c], nextId := db.nextId + 1 }) db

/-- The event-name dispatch of handle_webhook (lines 322-334): exact string
comparison against the six recognized event names; anything else is a no-op. -/
def dispatchEvent (event instanceName : Option String) (data : EventData)
    (sendOk : Bool) (now : Nat) (db : DB) : PyRes :=
  if event = some "connection.update" then .ok (handleConnectionUpdate instanceName data db)
  else if event = some "qrcode.updated" then .ok (handleQrcodeUpdate instanceName data db)
  else if event = some "messages.upsert" then handleMessageUpsert instanceName data sendOk now db
  else if event = some "send.message" then handleSendMessage data now db
  else if event = some "messages.update" then .ok (handleMessageUpdate data db)
  else if event = some "contacts.upsert" ∨ event = some "contacts.update" then
    .ok (handleContactsUpsert data now db)
  else .ok db

/-- The acknowledgement body returned by handle_webhook; FastAPI serves both
shapes with HTTP status 200. -/
inductive WebhookAck
  | ok
  | error (message : String)
deriving Repr, DecidableEq

/-- HTTP status of a webhook acknowledgement (a plain dict return in FastAPI
is served as 200). -/
def WebhookAck.httpStatus : WebhookAck → Nat := fun _ => 200

/-- Models handle_webhook (lines 302-341): dispatch inside a catch-all
try/except that logs and answers `status: error` instead of raising. -/
def handleWebhook (p : WebhookPayload) (sendOk : Bool) (now : Nat) (db : DB) :
    WebhookAck × DB :=
  match dispatchEvent p.event p.instanceName p.data sendOk now db with
  | .ok db2 => (.ok, db2)
  | .error (msg, db2) => (.error msg, db2)

/-- An HTTPException raised to an interactive caller. -/
structure HttpError where
  status_code : Nat
  detail : String
deriving Repr, DecidableEq

/-- The body of a transfer request (ChatTransfer schema: target team
required, target user optional). -/
structure ChatTransfer where
  target_team_id : Nat
  target_user_id : Option Nat := none
deriving Repr, DecidableEq

/-- The body of a close request (ChatClose schema). -/
structure ChatClose where
  classification : Option String := none
  rating : Option Int := none
  closing_comments : Option String := none
deriving Repr, DecidableEq

/-- Models transfer_chat (lines 1121-1143). -/
def transferChat (chatId : Nat) (td : ChatTransfer) (db : DB) :
    Except HttpError (String × DB) :=
  match db.chats.find? (fun c => decide (c.id = chatId)) with
  | none => .error ⟨404, "Chat not found"⟩
  | some _ =>
    let db := updateChat db chatId (fun c =>
      { c with
        team_id := some td.target_team_id,
        assigned_user_id := td.target_user_id,
        status := if td.target_user_id.isSome then .IN_PROGRESS else .WAITING })
    .ok ("Chat transferido com sucesso", db)

/-- Models close_chat (lines 1146-1194): best-effort rating-request send
(RATING on success, FINISHED on failure or missing prerequisites), then the
close metadata write and the CLOSED status, committed unconditionally. -/
def closeChat (chatId : Nat) (closeData : ChatClose) (userId : Nat)
    (sendOk : Bool) (now : Nat) (db : DB) : Except HttpError (String × DB) :=
  match db.chats.find? (fun c => decide (c.id = chatId)) with
  | none => .error ⟨404, "Chat not found"⟩
  | some chat =>
    let contact? := db.contacts.find? (fun c => decide (c.id = chat.contact_id))
    let chatConfig? := db.chatConfigs.find? (fun c => c.is_active)
    let chatbotConfig? := db.chatbotConfigs.head?
    let stateAndDb : ChatbotState × DB :=
      match contact?, chatConfig?, chatbotConfig? with
      | some contact, some cc, some bc =>
        let ratingMsg := pyOr bc.rating_request_message
          "Por favor, avalie nosso atendimento de 1 a 10:"
        if sendOk then
          (.RATING, { db with outbox := db.outbox ++
            [⟨some cc.instance_name, jidNumber contact.remote_jid, ratingMsg⟩] })
        else (.FINISHED, db)
      | _, _, _ => (.FINISHED, db)
    let db := updateChat stateAndDb.2 chatId (fun c =>
      { c with
        chatbot_state := stateAndDb.1,
        status := .CLOSED,
        classification := closeData.classification,
        rating := closeData.rating,
        closing_comments := closeData.closing_comments,
        closed_by_id := some userId,
        closed_at := some now })
    .ok ("Chat encerrado com sucesso", db)

/-- Models reopen_chat (lines 1197-1222): 404 on a missing chat, 400 on a
non-CLOSED chat (nothing mutated), else reopen as IN_PROGRESS assigned to the
requesting agent, clearing closed_at and closed_by_id and setting WITH_AGENT. -/
def reopenChat (chatId userId : Nat) (db : DB) : Except HttpError (String × DB) :=
  match db.chats.find? (fun c => decide (c.id = chatId)) with
  | none => .error ⟨404, "Chat not found"⟩
  | some chat =>
    if chat.status ≠ ChatStatus.CLOSED then .error ⟨400, "Chat não está encerrado"⟩
    else
      let db := updateChat db chatId (fun c =>
        { c with
          status := .IN_PROGRESS,
          assigned_user_id := some userId,
          closed_at := none,
          closed_by_id := none,
          chatbot_state := .WITH_AGENT })
      .ok ("Chat reaberto com sucesso", db)

/-- The visibility filter of list_chats (lines 816-858), as the per-row
boolean predicate the query filter denotes. -/
def chatVisible (u : User) (c : Chat) : Bool :=
  if u.is_superuser then true
  else if u.team_ids.isEmpty then
    decide (c.assigned_user_id = some u.id) ||
      (decide (c.status = .WAITING) && decide (c.team_id = none))
  else
    (decide (c.status = .WAITING) &&
      ((match c.team_id with
        | some t => decide (t ∈ u.team_ids)
        | none => false) || decide (c.team_id = none))) ||
    (decide (c.status = .IN_PROGRESS) && decide (c.assigned_user_id = some u.id)) ||
    (decide (c.status = .CLOSED) &&
      (match c.team_id with
       | some t => decide (t ∈ u.team_ids)
       | none => false)) ||
    decide (c.assigned_user_id = some u.id)

/-- The visibility rule as the specification words it, for comparison with
`chatVisible`: superuser; or WAITING with no team or a team among the user's
teams; or IN_PROGRESS assigned to the user; or CLOSED with a team among the
user's teams; or assigned to the user regardless of status. -/
def specVisible (u : User) (c : Chat) : Prop :=
  u.is_superuser = true ∨
  (c.status = .WAITING ∧ (c.team_id = none ∨ ∃ t, c.team_id = some t ∧ t ∈ u.team_ids)) ∨
  (c.status = .IN_PROGRESS ∧ c.assigned_user_id = some u.id) ∨
  (c.status = .CLOSED ∧ ∃ t, c.team_id = some t ∧ t ∈ u.team_ids) ∨
  c.assigned_user_id = some u.id

/-- Number of message rows carrying a given gateway message identifier. -/
def messageRowsWithId (db : DB) (mid : String) : Nat :=
  (db.messages.filter (fun m => decide (m.message_id = some mid))).length

/-- Number of non-CLOSED chats referencing a given contact. -/
def nonClosedChatsFor (db : DB) (contactId : Nat) : Nat :=
  (db.chats.filter (fun c => decide (c.contact_id = contactId) && !decide (c.status = .CLOSED))).length

/-- Database of a successful lifecycle operation (the fallback is never used
where this appears; the operations are shown to succeed separately). -/
def okDB (r : Except HttpError (String × DB)) (fallback : DB) : DB :=
  match r with
  | .ok p => p.2
  | .error _ => fallback

/-- The six event names recognized by the webhook dispatch. -/
def recognizedEventNames : List String :=
  ["connection.update", "qrcode.updated", "messages.upsert", "send.message",
   "messages.update", "contacts.upsert", "contacts.update"]

/-- C1 scenario: an empty database. -/
def dbC1 : DB := {}

/-- C1 scenario: one inbound messages.upsert event with gateway id MSG1. -/
def evC1 : WebhookPayload :=
  { event := some "messages.upsert", instanceName := some "miq2",
    data := { key := { remoteJid := "5511999990000@s.whatsapp.net", id := some "MSG1", fromMe := some false },
              message := { conversation := some "hello" } } }

/-- C2 scenario: first inbound message of the contact. -/
def evC2a : WebhookPayload :=
  { event := some "messages.upsert", instanceName := some "miq2",
    data := { key := { remoteJid := "556@s.whatsapp.net", id := some "C2M1", fromMe := some false },
              message := { conversation := some "oi" } } }

/-- C2 scenario: second inbound message of the contact. -/
def evC2b : WebhookPayload :=
  { evC2a with data := { evC2a.data with key := { evC2a.data.key with id := some "C2M2" } } }

/-- C2 scenario: state after ingesting the first message (contact 0, chat 1). -/
def dbC2a : DB := (handleWebhook evC2a false 100 {}).2

/-- C2 scenario: state after an agent closes chat 1 (send fails, FINISHED). -/
def dbC2b : DB := okDB (closeChat 1 {} 7 false 200 dbC2a) dbC2a

/-- C2 scenario: state after the contact writes again (a new chat 3 opens). -/
def dbC2c : DB := (handleWebhook evC2b false 300 dbC2b).2

/-- C2 scenario: state after an agent reopens the closed chat 1. -/
def dbC2d : DB := okDB (reopenChat 1 7 dbC2c) dbC2c

/-- C3 scenario: a contact with a chat sitting in MENU. -/
def dbC3 : DB :=
  { contacts := [{ id := 0, remote_jid := "5511@s.whatsapp.net" }],
    chats := [{ id := 1, protocol := "ATDC3", contact_id := 0, status := .WAITING, chatbot_state := .MENU }],
    chatConfigs := [{ instance_name := "miq2" }],
    chatbotConfigs := [{}], nextId := 2 }

/-- C3 scenario: an inbound message with no recognizable content field, which
makes the MENU branch of the chatbot raise AttributeError internally. -/
def pC3 : WebhookPayload :=
  { event := some "messages.upsert", instanceName := some "miq2",
    data := { key := { remoteJid := "5511@s.whatsapp.net", id := some "C3M1", fromMe := some false } } }

/-- C3 scenario: the committed state at the moment the internal exception is
raised (contact refreshed, message row already inserted). -/
def dbC3err : DB :=
  match dispatchEvent pC3.event pC3.instanceName pC3.data false 10 dbC3 with
  | .ok d => d
  | .error p => p.2

/-- C4 scenario: the single configured menu option, targeting team 42. -/
def optC4 : MenuOption := { option := some "1", text := some "Suporte", team_id := some 42 }

/-- C4 scenario: an active chatbot configuration with that option. -/
def cfgC4 : ChatbotConfig := { menu_options := [optC4] }

/-- C4 scenario: a chat in WELCOME. -/
def chatC4w : Chat := { id := 1, protocol := "ATDC4", contact_id := 0, status := .WAITING, chatbot_state := .WELCOME }

/-- C4 scenario: the same chat in MENU. -/
def chatC4m : Chat := { chatC4w with chatbot_state := .MENU }

/-- C4 scenario: database with the WELCOME chat. -/
def dbC4w : DB :=
  { contacts := [{ id := 0, remote_jid := "552@s.whatsapp.net" }],
    chats := [chatC4w], chatConfigs := [{ instance_name := "miq2" }],
    chatbotConfigs := [cfgC4], nextId := 2 }

/-- C4 scenario: database with the MENU chat. -/
def dbC4m : DB := { dbC4w with chats := [chatC4m] }

/-- C4 scenario: an inbound text for the WELCOME chat. -/
def evC4 : WebhookPayload :=
  { event := some "messages.upsert", instanceName := some "miq2",
    data := { key := { remoteJid := "552@s.whatsapp.net", id := some "C4M1", fromMe := some false },
              message := { conversation := some "oi" } } }

/-- C5 scenario: a closed chat awaiting its rating reply. -/
def chatC5 : Chat :=
  { id := 1, protocol := "ATDC5", contact_id := 0, status := .CLOSED,
    chatbot_state := .RATING, closed_at := some 50 }

/-- C5 scenario: database with the RATING chat and an active chatbot. -/
def dbC5 : DB :=
  { contacts := [{ id := 0, remote_jid := "553@s.whatsapp.net" }],
    chats := [chatC5], chatConfigs := [{ instance_name := "miq2" }],
    chatbotConfigs := [{}], nextId := 2 }

/-- C6 scenario: a non-superuser on team 10. -/
def uC6 : User := { id := 1, is_superuser := false, team_ids := [10] }

/-- C6 scenario: a non-superuser with no team memberships. -/
def uC6noteam : User := { id := 2, is_superuser := false, team_ids := [] }

/-- C6 scenario: a WAITING chat assigned to team 10. -/
def cC6 : Chat := { id := 1, protocol := "ATDC6", contact_id := 0, status := .WAITING, team_id := some 10 }

/-- C7 scenario: the contact of the chat being closed. -/
def contactC7 : ChatContact := { id := 0, remote_jid := "554@s.whatsapp.net" }

/-- C7 scenario: an IN_PROGRESS chat about to be closed. -/
def chatC7 : Chat :=
  { id := 1, protocol := "ATDC7", contact_id := 0, status := .IN_PROGRESS,
    chatbot_state := .WITH_AGENT, assigned_user_id := some 9 }

/-- C7 scenario: the active gateway configuration. -/
def ccC7 : ChatConfig := { instance_name := "miq2" }

/-- C7 scenario: the chatbot configuration. -/
def bcC7 : ChatbotConfig := {}

/-- C7 scenario: the close request body. -/
def cdC7 : ChatClose := { classification := some "resolvido", closing_comments := some "ok" }

/-- C7 scenario: the database before close. -/
def dbC7 : DB :=
  { contacts := [contactC7], chats := [chatC7], chatConfigs := [ccC7],
    chatbotConfigs := [bcC7], nextId := 2 }

/-- C8 scenario: a CLOSED chat carrying full close metadata. -/
def chatC8 : Chat :=
  { id := 1, protocol := "ATDC8", contact_id := 0, status := .CLOSED, chatbot_state := .FINISHED,
    classification := some "suporte", rating := some 5, closing_comments := some "bom",
    closed_by_id := some 3, closed_at := some 50 }

/-- C8 scenario: the database holding that chat. -/
def dbC8 : DB := { chats := [chatC8], nextId := 2 }

/-- C8 scenario: the database after agent 9 reopens the chat. -/
def dbC8r : DB := okDB (reopenChat 1 9 dbC8) dbC8

/-- C9 scenario: an empty database. -/
def dbC9 : DB := {}

/-- C9 scenario: an inbound message event under the exact lowercase name. -/
def pC9lower : WebhookPayload :=
  { event := some "messages.upsert", instanceName := some "miq2",
    data := { key := { remoteJid := "555@s.whatsapp.net", id := some "MSG9", fromMe := some false },
              message := { conversation := some "hi" } } }

/-- C9 scenario: the same event under an uppercase name variant. -/
def pC9upper : WebhookPayload := { pC9lower with event := some "MESSAGES_UPSERT" }

/-- C10 scenario: a CLOSED chat carrying full close metadata. -/
def chatC10 : Chat :=
  { id := 1, protocol := "ATDC10", contact_id := 0, status := .CLOSED, chatbot_state := .FINISHED,
    classification := some "duvida", rating := some 8, closing_comments := some "fim",
    closed_by_id := some 3, closed_at := some 60 }

/-- C10 scenario: the database holding that chat. -/
def dbC10 : DB := { chats := [chatC10], nextId := 2 }

/-- C10 scenario: a transfer request with a target agent. -/
def tdC10 : ChatTransfer := { target_team_id := 30, target_user_id := some 9 }

/-- Updating the rows carrying a given id commutes with `find?` by that id:
the found row is updated and everything before it is unaffected (the update
must preserve the id). -/
theorem find?_map_update (chats : List Chat) (i : Nat) (f : Chat → Chat)
    (hf : ∀ x, (f x).id = x.id) (c : Chat)
    (h : chats.find? (fun x => decide (x.id = i)) = some c) :
    (chats.map (fun x => if x.id = i then f x else x)).find? (fun x => decide (x.id = i)) = some (f c) := by
  induction chats with
  | nil => simp at h
  | cons a as ih =>
    rw [List.map_cons]
    by_cases ha : a.id = i
    · rw [List.find?_cons_of_pos _ (by simp [ha])] at h
      injection h with h
      subst h
      rw [if_pos ha, List.find?_cons_of_pos _ (by simp [hf, ha])]
    · rw [List.find?_cons_of_neg _ (by simp [ha])] at h
      rw [if_neg ha, List.find?_cons_of_neg _ (by simp [ha])]
      exact ih h

/-- C1: the claim states that ingesting the same message-upserted event N
times leaves exactly one ChatMessage row with its gateway message identifier.
The code violates it: _handle_message_upsert inserts unconditionally (no
duplicate check, unlike _handle_send_message, and no unique constraint on
chat_messages.message_id), so the first delivery leaves one row and the
re-delivery of the identical event leaves two. -/
theorem C1_redelivery_creates_duplicate_row :
    messageRowsWithId (handleWebhook evC1 false 100 dbC1).2 "MSG1" = 1 ∧
    messageRowsWithId (handleWebhook evC1 false 100 (handleWebhook evC1 false 100 dbC1).2).2 "MSG1" = 2 :=
  ⟨by decide, by decide⟩

/-- C2: the claim states that after any sequence of ingestion/send/transfer/
close/reopen operations at most one chat per contact is non-CLOSED. The code
violates it: reopen_chat has no guard against an already-active chat of the
same contact, so ingest, close, ingest again (a fresh chat opens), then
reopen the old chat leaves contact 0 with two non-CLOSED chats. -/
theorem C2_reopen_breaks_single_active_invariant :
    (closeChat 1 {} 7 false 200 dbC2a).isOk = true ∧
    (reopenChat 1 7 dbC2c).isOk = true ∧
    nonClosedChatsFor dbC2d 0 = 2 :=
  ⟨by decide, by decide, by decide⟩

/-- C3: the webhook handler catches every internal exception, always answers
with an HTTP 200 acknowledgement, and when event processing raises it returns
the status-error body over the state committed so far instead of propagating. -/
theorem C3_webhook_always_acknowledges (p : WebhookPayload) (sendOk : Bool) (now : Nat) (db : DB) :
    (handleWebhook p sendOk now db).1.httpStatus = 200 ∧
    (∀ msg db2, dispatchEvent p.event p.instanceName p.data sendOk now db = .error (msg, db2) →
      handleWebhook p sendOk now db = (.error msg, db2)) := by
  refine ⟨rfl, ?_⟩
  intro msg db2 h
  unfold handleWebhook
  rw [h]

/-- Witness for C3 at a concrete internally-raising request: an inbound
message with no recognizable content reaching a chat in MENU state raises
AttributeError inside processing, and the handler still answers 200. -/
theorem C3_webhook_always_acknowledges_witness :
    (handleWebhook pC3 false 10 dbC3).1.httpStatus = 200 ∧
    handleWebhook pC3 false 10 dbC3 = (.error "AttributeError", dbC3err) := by
  refine ⟨(C3_webhook_always_acknowledges pC3 false 10 dbC3).1, ?_⟩
  exact (C3_webhook_always_acknowledges pC3 false 10 dbC3).2 "AttributeError" dbC3err (by rfl)

/-- C4 counterexample: the claim states a WELCOME chat still transitions to
MENU when the welcome send raises. In the code the WELCOME branch commits the
transition only after a successful send (inside the same try), so a failing
send leaves the chat in WELCOME after the whole webhook ingestion. -/
theorem C4_welcome_send_failure_keeps_welcome :
    ((handleWebhook evC4 false 10 dbC4w).2.chats.find? (fun c => decide (c.id = 1))).map
        Chat.chatbot_state = some ChatbotState.WELCOME ∧
    some ChatbotState.WELCOME ≠ some ChatbotState.MENU :=
  ⟨by decide, by decide⟩

/-- C4 amended: when the outbound send fails, the MENU transition (team
assignment and WAITING_AGENT) is still persisted, because it is committed
before the send, and the send error propagates to the webhook boundary; the
WELCOME transition is committed only after a successful send, so a send
failure leaves the chat in WELCOME with the error swallowed. -/
theorem C4_amended_send_failure_semantics
    (instanceName : Option String) (chat : Chat) (content : String) (remoteJid : String)
    (db : DB) (cfg : ChatbotConfig) (cc : ChatConfig) (opt : MenuOption) (t : Nat)
    (hcfg : db.chatbotConfigs.head? = some cfg)
    (hact : cfg.is_active = true)
    (hcc : db.chatConfigs.find? (fun c => decide (some c.instance_name = instanceName)) = some cc)
    (hfind : db.chats.find? (fun x => decide (x.id = chat.id)) = some chat) :
    (chat.chatbot_state = .MENU →
      (menuOptionsOf db cfg).find? (fun o => decide (o.option = some (pyStrip content))) = some opt →
      opt.team_id = some t →
      ∃ db2, processChatbot instanceName chat (some content) remoteJid false db =
          .error ("EvolutionAPIError", db2) ∧
        db2.chats.find? (fun x => decide (x.id = chat.id)) =
          some { chat with team_id := some t, chatbot_state := .WAITING_AGENT } ∧
        db2.messages = db.messages ∧ db2.outbox = db.outbox) ∧
    (chat.chatbot_state = .WELCOME →
      processChatbot instanceName chat (some content) remoteJid false db = .ok db) := by
  constructor
  · intro hstate hopt hteam
    refine ⟨updateChat db chat.id (fun c =>
      { c with team_id := some t, chatbot_state := .WAITING_AGENT }), ?_, ?_, rfl, rfl⟩
    · simp [processChatbot, hcfg, hact, hcc, hstate, hopt, hteam, sendText, updateChat]
    · exact find?_map_update db.chats chat.id
        (fun c => { c with team_id := some t, chatbot_state := .WAITING_AGENT })
        (fun x => rfl) chat hfind
  · intro hstate
    simp [processChatbot, hcfg, hact, hcc, hstate]

/-- Witness for C4 amended on the concrete MENU scenario: input "1" matches
the configured option, the send fails, and the persisted row shows team 42
and WAITING_AGENT while the error propagates. -/
theorem C4_amended_send_failure_semantics_witness :
    ∃ db2, processChatbot (some "miq2") chatC4m (some "1") "552@s.whatsapp.net" false dbC4m =
        .error ("EvolutionAPIError", db2) ∧
      db2.chats.find? (fun x => decide (x.id = chatC4m.id)) =
        some { chatC4m with team_id := some 42, chatbot_state := .WAITING_AGENT } ∧
      db2.messages = dbC4m.messages ∧ db2.outbox = dbC4m.outbox := by
  exact (C4_amended_send_failure_semantics (some "miq2") chatC4m "1" "552@s.whatsapp.net" dbC4m
    cfgC4 { instance_name := "miq2" } optC4 42 (by decide) (by decide) (by decide) (by decide)).1
    (by decide) (by decide) (by decide)

/-- C5: in RATING with an active chatbot, an inbound text parsing as an
integer in [1,10] persists the rating, moves the chat to FINISHED and sends
the thanks text; an input that fails to parse or is out of range leaves the
chats table (hence rating and chatbot state) untouched and re-sends the
rating prompt. -/
theorem C5_rating_branch
    (instanceName : Option String) (chat : Chat) (content : String) (remoteJid : String)
    (db : DB) (cfg : ChatbotConfig) (cc : ChatConfig)
    (hcfg : db.chatbotConfigs.head? = some cfg)
    (hact : cfg.is_active = true)
    (hcc : db.chatConfigs.find? (fun c => decide (some c.instance_name = instanceName)) = some cc)
    (hfind : db.chats.find? (fun x => decide (x.id = chat.id)) = some chat)
    (hstate : chat.chatbot_state = .RATING) :
    (∀ r : Int, pyInt? (pyStrip content) = some r → 1 ≤ r → r ≤ 10 →
      ∃ db2, processChatbot instanceName chat (some content) remoteJid true db = .ok db2 ∧
        db2.chats.find? (fun x => decide (x.id = chat.id)) =
          some { chat with rating := some r, chatbot_state := .FINISHED } ∧
        db2.outbox = db.outbox ++ [⟨instanceName, jidNumber remoteJid,
          pyOr cfg.rating_thanks_message "Obrigado pela avaliação! Até a próxima. 👋"⟩]) ∧
    (∀ r : Int, pyInt? (pyStrip content) = some r → (r < 1 ∨ 10 < r) →
      processChatbot instanceName chat (some content) remoteJid true db =
        .ok { db with outbox := db.outbox ++ [⟨instanceName, jidNumber remoteJid,
          "Por favor, digite um número de 1 a 10 para avaliar nosso atendimento:"⟩] }) ∧
    (pyInt? (pyStrip content) = none →
      processChatbot instanceName chat (some content) remoteJid true db =
        .ok { db with outbox := db.outbox ++ [⟨instanceName, jidNumber remoteJid,
          "Por favor, digite um número de 1 a 10 para avaliar nosso atendimento:"⟩]}) := by
  refine ⟨?_, ?_, ?_⟩
  · intro r hr h1 h10
    refine ⟨{ updateChat db chat.id (fun c => { c with rating := some r, chatbot_state := .FINISHED })
      with outbox := db.outbox ++ [⟨instanceName, jidNumber remoteJid,
        pyOr cfg.rating_thanks_message "Obrigado pela avaliação! Até a próxima. 👋"⟩] }, ?_, ?_, rfl⟩
    · simp [processChatbot, hcfg, hact, hcc, hstate, hr, h1, h10, sendText, updateChat]
    · exact find?_map_update db.chats chat.id
        (fun c => { c with rating := some r, chatbot_state := .FINISHED })
        (fun x => rfl) chat hfind
  · intro r hr hout
    have hcond : ¬(1 ≤ r ∧ r ≤ 10) := by omega
    simp [processChatbot, hcfg, hact, hcc, hstate, hr, hcond, sendText]
  · intro hr
    simp [processChatbot, hcfg, hact, hcc, hstate, hr, sendText]

/-- Witness for C5 on the concrete RATING scenario with input "7": rating 7
is persisted, the chat finishes, and the thanks text is sent. -/
theorem C5_rating_branch_witness :
    ∃ db2, processChatbot (some "miq2") chatC5 (some "7") "553@s.whatsapp.net" true dbC5 = .ok db2 ∧
      db2.chats.find? (fun x => decide (x.id = chatC5.id)) =
        some { chatC5 with rating := some 7, chatbot_state := .FINISHED } ∧
      db2.outbox = dbC5.outbox ++ [⟨some "miq2", jidNumber "553@s.whatsapp.net",
        pyOr ({} : ChatbotConfig).rating_thanks_message "Obrigado pela avaliação! Até a próxima. 👋"⟩] := by
  exact (C5_rating_branch (some "miq2") chatC5 "7" "553@s.whatsapp.net" dbC5 {}
    { instance_name := "miq2" } (by decide) (by decide) (by decide) (by decide) (by decide)).1
    7 (by decide) (by decide) (by decide)

/-- C6: the listing visibility predicate holds exactly when the user is a
superuser, or the chat is WAITING with no team or a team of the user, or
IN_PROGRESS and assigned to the user, or CLOSED with a team of the user, or
assigned to the user regardless of status; and a non-superuser with no team
memberships sees exactly the chats assigned to them plus the unassigned
WAITING ones. -/
theorem C6_visibility_matches_spec (u : User) (c : Chat) :
    (chatVisible u c = true ↔ specVisible u c) ∧
    (u.is_superuser = false → u.team_ids = [] →
      (chatVisible u c = true ↔
        (c.assigned_user_id = some u.id ∨ (c.status = .WAITING ∧ c.team_id = none)))) := by
  constructor
  · by_cases hs : u.is_superuser
    · simp [chatVisible, specVisible, hs]
    · by_cases he : u.team_ids = []
      · rcases htid : c.team_id with _ | t <;> rcases hst : c.status <;>
          simp [chatVisible, specVisible, hs, he, htid, hst]
      · rcases htid : c.team_id with _ | t <;> rcases hst : c.status <;>
          simp [chatVisible, specVisible, hs, he, htid, hst]
  · intro hs he
    rcases htid : c.team_id with _ | t <;> rcases hst : c.status <;>
      simp [chatVisible, hs, he, htid, hst]

/-- Witness for C6 at a concrete user/chat pair, for both the general rule
and the no-team special case. -/
theorem C6_visibility_matches_spec_witness :
    (chatVisible uC6 cC6 = true ↔ specVisible uC6 cC6) ∧
    (chatVisible uC6noteam cC6 = true ↔
      (cC6.assigned_user_id = some uC6noteam.id ∨ (cC6.status = .WAITING ∧ cC6.team_id = none))) :=
  ⟨(C6_visibility_matches_spec uC6 cC6).1,
   (C6_visibility_matches_spec uC6noteam cC6).2 rfl rfl⟩

/-- C7: closing an existing chat when the gateway send of the rating request
fails still closes the chat with chatbot state FINISHED (not RATING), records
the close metadata from the request plus the closing agent and timestamp,
records no outbound message row, performs no gateway send, and returns the
success response instead of raising. -/
theorem C7_close_send_failure (chatId userId now : Nat) (closeData : ChatClose)
    (db : DB) (chat : Chat) (contact : ChatContact) (cc : ChatConfig) (bc : ChatbotConfig)
    (hfind : db.chats.find? (fun x => decide (x.id = chatId)) = some chat)
    (hcontact : db.contacts.find? (fun x => decide (x.id = chat.contact_id)) = some contact)
    (hcc : db.chatConfigs.find? (fun x => x.is_active) = some cc)
    (hbc : db.chatbotConfigs.head? = some bc) :
    ∃ db2, closeChat chatId closeData userId false now db = .ok ("Chat encerrado com sucesso", db2) ∧
      db2.chats.find? (fun x => decide (x.id = chatId)) =
        some { chat with
               chatbot_state := .FINISHED, status := .CLOSED,
               classification := closeData.classification, rating := closeData.rating,
               closing_comments := closeData.closing_comments,
               closed_by_id := some userId, closed_at := some now } ∧
      db2.messages = db.messages ∧ db2.outbox = db.outbox := by
  refine ⟨updateChat db chatId (fun c =>
    { c with
      chatbot_state := .FINISHED, status := .CLOSED,
      classification := closeData.classification, rating := closeData.rating,
      closing_comments := closeData.closing_comments,
      closed_by_id := some userId, closed_at := some now }), ?_, ?_, rfl, rfl⟩
  · simp [closeChat, hfind, hcontact, hcc, hbc, updateChat]
  · exact find?_map_update db.chats chatId
      (fun c => { c with
                  chatbot_state := .FINISHED, status := .CLOSED,
                  classification := closeData.classification, rating := closeData.rating,
                  closing_comments := closeData.closing_comments,
                  closed_by_id := some userId, closed_at := some now })
      (fun x => rfl) chat hfind

/-- Witness for C7 on the concrete close scenario with a failing send. -/
theorem C7_close_send_failure_witness :
    ∃ db2, closeChat 1 cdC7 9 false 500 dbC7 = .ok ("Chat encerrado com sucesso", db2) ∧
      db2.chats.find? (fun x => decide (x.id = 1)) =
        some { chatC7 with
               chatbot_state := .FINISHED, status := .CLOSED,
               classification := cdC7.classification, rating := cdC7.rating,
               closing_comments := cdC7.closing_comments,
               closed_by_id := some 9, closed_at := some 500 } ∧
      db2.messages = dbC7.messages ∧ db2.outbox = dbC7.outbox := by
  exact C7_close_send_failure 1 9 500 cdC7 dbC7 chatC7 contactC7 ccC7 bcC7
    (by decide) (by decide) (by decide) (by decide)

/-- C8 counterexample: the claim states a successful reopen clears the close
metadata. In the code reopen_chat clears only closed_at and closed_by_id:
after reopening the concrete closed chat, classification, rating and closing
comments are all still present on the reopened IN_PROGRESS row. -/
theorem C8_reopen_retains_close_metadata :
    (reopenChat 1 9 dbC8).isOk = true ∧
    (dbC8r.chats.find? (fun c => decide (c.id = 1))).map Chat.status = some ChatStatus.IN_PROGRESS ∧
    (dbC8r.chats.find? (fun c => decide (c.id = 1))).map Chat.classification = some (some "suporte") ∧
    (dbC8r.chats.find? (fun c => decide (c.id = 1))).map Chat.rating = some (some 5) ∧
    (dbC8r.chats.find? (fun c => decide (c.id = 1))).map Chat.closing_comments = some (some "bom") :=
  ⟨by decide, by decide, by decide, by decide, by decide⟩

/-- C8 amended: reopen succeeds only on a CLOSED chat — on any other status
it is rejected with a 400 client error and nothing is written — and on
success it sets IN_PROGRESS, assigns the requesting agent, clears the close
timestamp and closing-agent reference, sets WITH_AGENT, and leaves
classification, rating and closing comments as they were. -/
theorem C8_amended_reopen_semantics (chatId userId : Nat) (db : DB) (chat : Chat)
    (hfind : db.chats.find? (fun x => decide (x.id = chatId)) = some chat) :
    (chat.status ≠ .CLOSED →
      reopenChat chatId userId db = .error ⟨400, "Chat não está encerrado"⟩) ∧
    (chat.status = .CLOSED → ∃ db2,
      reopenChat chatId userId db = .ok ("Chat reaberto com sucesso", db2) ∧
      db2.chats.find? (fun x => decide (x.id = chatId)) =
        some { chat with
               status := .IN_PROGRESS, assigned_user_id := some userId,
               closed_at := none, closed_by_id := none, chatbot_state := .WITH_AGENT } ∧
      db2.messages = db.messages) := by
  constructor
  · intro hne
    simp [reopenChat, hfind, hne]
  · intro heq
    refine ⟨updateChat db chatId (fun c =>
      { c with
        status := .IN_PROGRESS, assigned_user_id := some userId,
        closed_at := none, closed_by_id := none, chatbot_state := .WITH_AGENT }), ?_, ?_, rfl⟩
    · simp [reopenChat, hfind, heq, updateChat]
    · exact find?_map_update db.chats chatId
        (fun c => { c with
                    status := .IN_PROGRESS, assigned_user_id := some userId,
                    closed_at := none, closed_by_id := none, chatbot_state := .WITH_AGENT })
        (fun x => rfl) chat hfind

/-- Witness for C8 amended on the concrete closed chat: reopen succeeds and
the reopened row keeps its classification, rating and closing comments. -/
theorem C8_amended_reopen_semantics_witness :
    ∃ db2, reopenChat 1 9 dbC8 = .ok ("Chat reaberto com sucesso", db2) ∧
      db2.chats.find? (fun x => decide (x.id = 1)) =
        some { chatC8 with
               status := .IN_PROGRESS, assigned_user_id := some 9,
               closed_at := none, closed_by_id := none, chatbot_state := .WITH_AGENT } ∧
      db2.messages = dbC8.messages := by
  exact (C8_amended_reopen_semantics 1 9 dbC8 chatC8 (by decide)).2 (by decide)

/-- C9 counterexample: the claim states event names are matched case and
format insensitively, so "MESSAGES_UPSERT" should dispatch to the message
handler. In the code the dispatch is an exact string comparison: the
uppercase variant changes nothing, while the exact lowercase dotted name
ingests the message. -/
theorem C9_uppercase_event_not_dispatched :
    (handleWebhook pC9upper false 100 dbC9).2 = dbC9 ∧
    messageRowsWithId (handleWebhook pC9upper false 100 dbC9).2 "MSG9" = 0 ∧
    messageRowsWithId (handleWebhook pC9lower false 100 dbC9).2 "MSG9" = 1 :=
  ⟨by decide, by decide, by decide⟩

/-- C9 amended: the dispatch compares the event name exactly (case-sensitive)
against the six lowercase dotted names; any other name — including case or
format variants of recognized ones — is acknowledged and ignored with no
state change, and the exact name "messages.upsert" dispatches to the
message-upserted handler. -/
theorem C9_amended_exact_dispatch (event instanceName : Option String) (data : EventData)
    (sendOk : Bool) (now : Nat) (db : DB)
    (h : ∀ s, event = some s → s ∉ recognizedEventNames) :
    dispatchEvent event instanceName data sendOk now db = .ok db ∧
    dispatchEvent (some "messages.upsert") instanceName data sendOk now db =
      handleMessageUpsert instanceName data sendOk now db := by
  constructor
  · rcases event with _ | s
    · simp [dispatchEvent]
    · have hm := h s rfl
      simp only [recognizedEventNames, List.mem_cons, List.not_mem_nil, or_false] at hm
      push_neg at hm
      obtain ⟨h1, h2, h3, h4, h5, h6, h7⟩ := hm
      simp [dispatchEvent, h1, h2, h3, h4, h5, h6, h7]
  · simp [dispatchEvent]

/-- Witness for C9 amended at the concrete uppercase variant. -/
theorem C9_amended_exact_dispatch_witness :
    dispatchEvent (some "MESSAGES_UPSERT") (some "miq2") pC9upper.data false 100 dbC9 = .ok dbC9 ∧
    dispatchEvent (some "messages.upsert") (some "miq2") pC9upper.data false 100 dbC9 =
      handleMessageUpsert (some "miq2") pC9upper.data false 100 dbC9 := by
  exact C9_amended_exact_dispatch (some "MESSAGES_UPSERT") (some "miq2") pC9upper.data false 100 dbC9
    (by intro s hs; injection hs with hs; subst hs; decide)

/-- C10: transfer fails only with a 404 when the chat does not exist; on any
existing chat — whatever its status, CLOSED included — it succeeds, writes
the target team and agent, sets IN_PROGRESS when a target agent is given and
WAITING otherwise, and the updated row keeps closed_at, closed_by_id,
classification, rating and closing_comments exactly as they were. -/
theorem C10_transfer_semantics (chatId : Nat) (td : ChatTransfer) (db : DB) :
    (db.chats.find? (fun x => decide (x.id = chatId)) = none →
      transferChat chatId td db = .error ⟨404, "Chat not found"⟩) ∧
    (∀ chat, db.chats.find? (fun x => decide (x.id = chatId)) = some chat →
      ∃ db2, transferChat chatId td db = .ok ("Chat transferido com sucesso", db2) ∧
        db2.chats.find? (fun x => decide (x.id = chatId)) =
          some { chat with
                 team_id := some td.target_team_id,
                 assigned_user_id := td.target_user_id,
                 status := if td.target_user_id.isSome then ChatStatus.IN_PROGRESS else ChatStatus.WAITING } ∧
        db2.messages = db.messages) := by
  constructor
  · intro h
    simp [transferChat, h]
  · intro chat h
    refine ⟨updateChat db chatId (fun c =>
      { c with
        team_id := some td.target_team_id, assigned_user_id := td.target_user_id,
        status := if td.target_user_id.isSome then ChatStatus.IN_PROGRESS else ChatStatus.WAITING }),
      ?_, ?_, rfl⟩
    · simp [transferChat, h, updateChat]
    · exact find?_map_update db.chats chatId
        (fun c => { c with
                    team_id := some td.target_team_id, assigned_user_id := td.target_user_id,
                    status := if td.target_user_id.isSome then ChatStatus.IN_PROGRESS else ChatStatus.WAITING })
        (fun x => rfl) chat h

/-- Witness for C10 on a concrete CLOSED chat transferred to a target agent:
the transfer succeeds, the row becomes IN_PROGRESS, and its close metadata is
untouched. -/
theorem C10_transfer_semantics_witness :
    ∃ db2, transferChat 1 tdC10 dbC10 = .ok ("Chat transferido com sucesso", db2) ∧
      db2.chats.find? (fun x => decide (x.id = 1)) =
        some { chatC10 with
               team_id := some tdC10.target_team_id,
               assigned_user_id := tdC10.target_user_id,
               status := if tdC10.target_user_id.isSome then ChatStatus.IN_PROGRESS else ChatStatus.WAITING } ∧
      db2.messages = dbC10.messages := by
  exact (C10_transfer_semantics 1 tdC10 dbC10).2 chatC10 (by decide)

end Miq2
